import Mathlib

/-!
Verification of the Scoring & Ranking Engine of the crypto rebound-ranking
backend (src/backend/server.py). The engine is embedded shallowly:

* percentages, prices, market caps and scores are real numbers (`ℝ`);
  Python's `math.log` becomes `Real.log`;
* possibly-missing percent-change fields (`None` in Python / absent dict
  keys) are `Option ℝ`;
* the `uuid4()` record id and `datetime.utcnow()` timestamp drawn by each
  `CryptoScore` construction are modelled as values supplied by the caller
  (a stream `gen : ℕ → ℕ` of fresh ids and a timestamp `now : ℕ`);
* Python's stable `list.sort(key=..., reverse=True)` becomes
  `List.mergeSort` with the corresponding boolean comparison.

Function and field names follow the source.
-/

set_option maxHeartbeats 1000000

/-- Embeds the `TimePeriod` string enum of server.py (1h .. 365d). -/
inductive TimePeriod where
  | oneHour
  | twentyFourHours
  | oneWeek
  | oneMonth
  | twoMonths
  | threeMonths
  | sixMonths
  | nineMonths
  | oneYear
deriving DecidableEq, Repr

/-- Embeds the `CryptoData` pydantic model / the mongo document read by
`calculate_crypto_score`: the percent-change fields accessed through
`dict.get` may be absent, hence `Option ℝ`. -/
structure CryptoData where
  id : String
  symbol : String
  name : String
  market_cap : ℝ
  price : ℝ
  volume_24h : ℝ
  percent_change_1h : Option ℝ
  percent_change_24h : Option ℝ
  percent_change_7d : Option ℝ
  percent_change_30d : Option ℝ
  percent_change_60d : Option ℝ
  percent_change_90d : Option ℝ
  percent_change_180d : Option ℝ
  percent_change_270d : Option ℝ
  percent_change_365d : Option ℝ
  data_sources : List String

/-- Embeds the `CryptoScore` pydantic model. The `id` field (uuid4 default
factory) and `last_updated` (utcnow default factory) are fresh values drawn
at construction time; they are modelled as `ℕ` values passed in explicitly. -/
structure CryptoScore where
  id : ℕ
  crypto_id : String
  symbol : String
  name : String
  market_cap : ℝ
  price : ℝ
  period : TimePeriod
  period_performance : Option ℝ
  data_source : String
  performance_score : ℝ
  drawdown_score : ℝ
  rebound_potential_score : ℝ
  momentum_score : ℝ
  total_score : ℝ
  rank : Option ℕ
  last_updated : ℕ

/-- Embeds `CryptoScoringService.calculate_performance_score`.
A `none` input models Python `percent_change is None`. -/
noncomputable def calculate_performance_score (percent_change : Option ℝ) : ℝ :=
  match percent_change with
  | none => 0
  | some pc =>
    if pc ≤ -50 then 25
    else if pc ≤ -30 then 35
    else if pc ≤ -15 then 45
    else if pc ≤ -5 then 50
    else if pc ≤ 10 then 65
    else if pc ≤ 25 then 75
    else min 95 (70 + Real.log (1 + pc / 25) * 10)

/-- Embeds the market-cap tier selection at the top of
`calculate_rebound_potential_score`: returns
(market_cap_factor, base_potential). -/
noncomputable def rebound_cap_tier (market_cap : ℝ) : ℝ × ℝ :=
  if market_cap > 50000000000 then (0.6, 30)
  else if market_cap > 10000000000 then (0.8, 40)
  else if market_cap > 1000000000 then (1.0, 50)
  else if market_cap > 100000000 then (1.4, 60)
  else if market_cap > 10000000 then (1.8, 70)
  else (2.2, 75)

/-- Embeds the `period_multiplier` dict of `calculate_rebound_potential_score`. -/
noncomputable def rebound_period_multiplier (period : TimePeriod) : ℝ :=
  match period with
  | .oneHour => 0.7
  | .twentyFourHours => 0.8
  | .oneWeek => 0.9
  | .oneMonth => 1.0
  | .twoMonths => 1.1
  | .threeMonths => 1.2
  | .sixMonths => 1.15
  | .nineMonths => 1.1
  | .oneYear => 1.0

/-- Embeds `CryptoScoringService.calculate_rebound_potential_score`. -/
noncomputable def calculate_rebound_potential_score
    (current_change : Option ℝ) (market_cap : ℝ) (period : TimePeriod) : ℝ :=
  match current_change with
  | none => 50
  | some cc =>
    let market_cap_factor := (rebound_cap_tier market_cap).1
    let base_potential := (rebound_cap_tier market_cap).2
    let period_multiplier := rebound_period_multiplier period
    let rebound_score :=
      if cc ≤ -70 then base_potential + 60 * market_cap_factor * period_multiplier
      else if cc ≤ -50 then base_potential + 50 * market_cap_factor * period_multiplier
      else if cc ≤ -30 then base_potential + 40 * market_cap_factor * period_multiplier
      else if cc ≤ -15 then base_potential + 25 * market_cap_factor * period_multiplier
      else if cc ≤ -5 then base_potential + 15 * market_cap_factor * period_multiplier
      else if cc ≤ 5 then base_potential + 5 * market_cap_factor
      else base_potential - cc * 0.3
    max 10 (min 100 rebound_score)

/-- Embeds `CryptoScoringService.calculate_momentum_score`.
A `none` argument models a `None` short or long change. -/
noncomputable def calculate_momentum_score
    (short_change long_change : Option ℝ) (_period : TimePeriod) : ℝ :=
  match short_change, long_change with
  | some sc, some lc =>
    let momentum_differential := sc - lc
    let momentum_base : ℝ :=
      if sc > 0 ∧ lc < -10 then 80 + min 15 (|lc| / 5)
      else if momentum_differential > 20 then 85
      else if momentum_differential > 10 then 75
      else if momentum_differential > 5 then 65
      else if momentum_differential > 0 then 55
      else if momentum_differential > -5 then 45
      else if momentum_differential > -15 then 35
      else 25
    let trend_consistency : ℝ :=
      if (sc > 0 ∧ lc > 0) ∨ (sc < 0 ∧ lc < 0) then 5
      else if sc > 0 ∧ lc < 0 then 10
      else -5
    max 0 (min 100 (momentum_base + trend_consistency))
  | _, _ => 50

/-- Embeds the `period_multiplier` dict of `calculate_drawdown_score`. -/
noncomputable def drawdown_period_multiplier (period : TimePeriod) : ℝ :=
  match period with
  | .oneHour => 1.1
  | .twentyFourHours => 1.0
  | .oneWeek => 0.9
  | .oneMonth => 0.8
  | .twoMonths => 0.75
  | .threeMonths => 0.7
  | .sixMonths => 0.65
  | .nineMonths => 0.6
  | .oneYear => 0.55

/-- Embeds `CryptoScoringService.calculate_drawdown_score`. -/
noncomputable def calculate_drawdown_score
    (percent_change : Option ℝ) (volatility_proxy : ℝ) (period : TimePeriod) : ℝ :=
  match percent_change with
  | none => 50
  | some pc =>
    let period_multiplier := drawdown_period_multiplier period
    let base_score : ℝ :=
      if pc > 0 then 85 - pc * 0.1
      else if pc > -20 then 75 + |pc|
      else if pc > -50 then 60 + (|pc| - 20) * 0.5
      else 40 + (100 - |pc|) * 0.3
    let volatility_adjustment := volatility_proxy * 10
    max 10 (min 100 (base_score * period_multiplier + volatility_adjustment))

/-- Embeds the weight dictionaries returned by `get_period_specific_weights`. -/
structure Weights where
  performance : ℝ
  drawdown : ℝ
  rebound : ℝ
  momentum : ℝ

/-- Embeds `get_period_specific_weights` of server.py. -/
noncomputable def get_period_specific_weights (period : TimePeriod) : Weights :=
  if period = .oneHour ∨ period = .twentyFourHours then
    { performance := 0.10, drawdown := 0.10, rebound := 0.50, momentum := 0.30 }
  else if period = .oneWeek ∨ period = .oneMonth then
    { performance := 0.15, drawdown := 0.10, rebound := 0.45, momentum := 0.30 }
  else if period = .twoMonths ∨ period = .threeMonths then
    { performance := 0.15, drawdown := 0.15, rebound := 0.45, momentum := 0.25 }
  else
    { performance := 0.10, drawdown := 0.15, rebound := 0.50, momentum := 0.25 }

/-- Embeds the `period_map` lookup of `get_percent_change_for_period`:
the percent-change field stored for a given period. -/
def period_field (crypto_data : CryptoData) (period : TimePeriod) : Option ℝ :=
  match period with
  | .oneHour => crypto_data.percent_change_1h
  | .twentyFourHours => crypto_data.percent_change_24h
  | .oneWeek => crypto_data.percent_change_7d
  | .oneMonth => crypto_data.percent_change_30d
  | .twoMonths => crypto_data.percent_change_60d
  | .threeMonths => crypto_data.percent_change_90d
  | .sixMonths => crypto_data.percent_change_180d
  | .nineMonths => crypto_data.percent_change_270d
  | .oneYear => crypto_data.percent_change_365d

/-- Embeds `get_percent_change_for_period` of server.py: returns the stored
value for the requested period together with a data-source tag, or
`(none, "unavailable")` when the stored value is absent. -/
def get_percent_change_for_period
    (crypto_data : CryptoData) (period : TimePeriod) : Option ℝ × String :=
  match period_field crypto_data period with
  | some value =>
    let data_sources := crypto_data.data_sources
    if period = .oneHour ∨ period = .twentyFourHours ∨ period = .oneWeek ∨
        period = .oneMonth ∨ period = .twoMonths ∨ period = .threeMonths then
      (some value, "direct_cmc")
    else if "coingecko" ∈ data_sources then (some value, "coingecko_historical")
    else if "yahoo" ∈ data_sources then (some value, "yahoo_historical")
    else if "calculated" ∈ data_sources then (some value, "calculated_from_cmc")
    else (some value, "external_source")
  | none => (none, "unavailable")

/-- Embeds the `reference_change` selection inside `calculate_crypto_score`. -/
def reference_change (crypto_data : CryptoData) (period : TimePeriod) : Option ℝ :=
  match period with
  | .oneHour => crypto_data.percent_change_24h
  | .twentyFourHours => crypto_data.percent_change_7d
  | .oneWeek => crypto_data.percent_change_30d
  | _ => crypto_data.percent_change_7d

/-- Embeds `calculate_crypto_score` of server.py. `freshId` and `now` are
the uuid4 value and utcnow timestamp drawn by the `CryptoScore` default
factories. Returns `none` when the resolved percent change is absent. -/
noncomputable def calculate_crypto_score
    (freshId now : ℕ) (crypto_data : CryptoData) (period : TimePeriod) :
    Option CryptoScore :=
  match get_percent_change_for_period crypto_data period with
  | (none, _) => none
  | (some percent_change, data_source) =>
    let performance_score := calculate_performance_score (some percent_change)
    let volume_24h := crypto_data.volume_24h
    let market_cap := crypto_data.market_cap
    let volatility_proxy := min 3 (volume_24h / max market_cap 1000000)
    let drawdown_score :=
      calculate_drawdown_score (some percent_change) volatility_proxy period
    let rebound_potential_score :=
      calculate_rebound_potential_score (some percent_change) market_cap period
    let short_change := crypto_data.percent_change_24h
    let momentum_score :=
      match reference_change crypto_data period with
      | some rc => calculate_momentum_score short_change (some rc) period
      | none => calculate_momentum_score short_change (some percent_change) period
    let period_weights := get_period_specific_weights period
    let total_score :=
      performance_score * period_weights.performance +
      drawdown_score * period_weights.drawdown +
      rebound_potential_score * period_weights.rebound +
      momentum_score * period_weights.momentum
    some
      { id := freshId
        crypto_id := crypto_data.id
        symbol := crypto_data.symbol
        name := crypto_data.name
        market_cap := market_cap
        price := crypto_data.price
        period := period
        period_performance := some percent_change
        data_source := data_source
        performance_score := performance_score
        drawdown_score := drawdown_score
        rebound_potential_score := rebound_potential_score
        momentum_score := momentum_score
        total_score := total_score
        rank := none
        last_updated := now }

/-- Embeds the comparison used by `scores.sort(key=lambda x: x.total_score,
reverse=True)`: a stable sort placing higher total scores first. -/
noncomputable def scoreLe (a b : CryptoScore) : Bool :=
  decide (b.total_score ≤ a.total_score)

/-- Embeds the scoring loop of `calculate_all_scores` for one period:
build a `CryptoScore` per crypto, dropping cryptos whose score is `None`.
The counter `i` indexes the stream of fresh uuid values: the i-th
successfully constructed score draws `gen i`. -/
noncomputable def score_batch (gen : ℕ → ℕ) (now : ℕ) :
    ℕ → List CryptoData → TimePeriod → List CryptoScore
  | _, [], _ => []
  | i, crypto :: rest, period =>
    match calculate_crypto_score (gen i) now crypto period with
    | some score => score :: score_batch gen now (i + 1) rest period
    | none => score_batch gen now i rest period

/-- Embeds the rank-assignment loop of `calculate_all_scores`
(`score.rank = i + 1` over the sorted list). -/
def assign_ranks : ℕ → List CryptoScore → List CryptoScore
  | _, [] => []
  | i, score :: rest => { score with rank := some i } :: assign_ranks (i + 1) rest

/-- Embeds one period iteration of `calculate_all_scores` of server.py:
score every crypto, sort by total score descending (stable), assign ranks
1..N. -/
noncomputable def calculate_all_scores
    (gen : ℕ → ℕ) (now : ℕ) (cryptos : List CryptoData) (period : TimePeriod) :
    List CryptoScore :=
  assign_ranks 1 ((score_batch gen now 0 cryptos period).mergeSort scoreLe)

/-- A `CryptoScore` with the nondeterministically generated metadata
(`id`, `last_updated`) removed; used to state what is and is not
deterministic about the engine. -/
structure CoreScore where
  crypto_id : String
  symbol : String
  name : String
  market_cap : ℝ
  price : ℝ
  period : TimePeriod
  period_performance : Option ℝ
  data_source : String
  performance_score : ℝ
  drawdown_score : ℝ
  rebound_potential_score : ℝ
  momentum_score : ℝ
  total_score : ℝ
  rank : Option ℕ

/-- Forgets the generated `id` and `last_updated` fields of a score. -/
def stripMeta (s : CryptoScore) : CoreScore :=
  { crypto_id := s.crypto_id
    symbol := s.symbol
    name := s.name
    market_cap := s.market_cap
    price := s.price
    period := s.period
    period_performance := s.period_performance
    data_source := s.data_source
    performance_score := s.performance_score
    drawdown_score := s.drawdown_score
    rebound_potential_score := s.rebound_potential_score
    momentum_score := s.momentum_score
    total_score := s.total_score
    rank := s.rank }

/-- The metadata-free part of `calculate_crypto_score`; it does not depend
on the generated uuid or timestamp. -/
noncomputable def calculate_core_score
    (crypto_data : CryptoData) (period : TimePeriod) : Option CoreScore :=
  (calculate_crypto_score 0 0 crypto_data period).map stripMeta

/-- The descending-total-score comparison on metadata-free scores. -/
noncomputable def coreLe (a b : CoreScore) : Bool :=
  decide (b.total_score ≤ a.total_score)

/-- Rank assignment on metadata-free scores. -/
def assign_core_ranks : ℕ → List CoreScore → List CoreScore
  | _, [] => []
  | i, score :: rest => { score with rank := some i } :: assign_core_ranks (i + 1) rest


lemma weights_twentyFourHours :
    get_period_specific_weights .twentyFourHours =
      { performance := 0.10, drawdown := 0.10, rebound := 0.50, momentum := 0.30 } := rfl

lemma weights_oneMonth :
    get_period_specific_weights .oneMonth =
      { performance := 0.15, drawdown := 0.10, rebound := 0.45, momentum := 0.30 } := rfl

/-- A concrete asset record: mid-cap, moderate drawdown, data for 24h, 7d
and 30d only. -/
noncomputable def crypto0 : CryptoData :=
  { id := "c0", symbol := "AAA", name := "AAA coin",
    market_cap := 5000000000, price := 1, volume_24h := 0,
    percent_change_1h := none, percent_change_24h := some (-20),
    percent_change_7d := some (-30), percent_change_30d := some 40,
    percent_change_60d := none, percent_change_90d := none,
    percent_change_180d := none, percent_change_270d := none,
    percent_change_365d := none, data_sources := ["coinmarketcap"] }

/-- The score the engine produces for `crypto0` over 24h, given fresh id
`fid` and timestamp `now`. -/
noncomputable def score0 (fid now : ℕ) : CryptoScore :=
  { id := fid, crypto_id := "c0", symbol := "AAA", name := "AAA coin",
    market_cap := 5000000000, price := 1, period := .twentyFourHours,
    period_performance := some (-20), data_source := "direct_cmc",
    performance_score := 45, drawdown_score := 60,
    rebound_potential_score := 70, momentum_score := 70,
    total_score := 66.5, rank := none, last_updated := now }

lemma res_crypto0 :
    get_percent_change_for_period crypto0 .twentyFourHours =
      (some (-20), "direct_cmc") := by
  simp [get_percent_change_for_period, period_field, crypto0]

lemma calc_crypto0 (fid now : ℕ) :
    calculate_crypto_score fid now crypto0 .twentyFourHours =
      some (score0 fid now) := by
  rw [calculate_crypto_score, res_crypto0]
  norm_num [score0, crypto0, reference_change,
    calculate_performance_score, calculate_drawdown_score,
    drawdown_period_multiplier, calculate_rebound_potential_score,
    rebound_cap_tier, rebound_period_multiplier, calculate_momentum_score,
    weights_twentyFourHours, CryptoScore.mk.injEq,
    min_def, max_def, abs_of_neg, abs_of_nonneg]

/-- A concrete asset record with no percent-change data at all: the
resolver yields `unavailable` for every period. -/
noncomputable def cryptoU : CryptoData :=
  { id := "cU", symbol := "UUU", name := "U coin",
    market_cap := 0, price := 0, volume_24h := 0,
    percent_change_1h := none, percent_change_24h := none,
    percent_change_7d := none, percent_change_30d := none,
    percent_change_60d := none, percent_change_90d := none,
    percent_change_180d := none, percent_change_270d := none,
    percent_change_365d := none, data_sources := ["coinmarketcap"] }

lemma res_cryptoU :
    get_percent_change_for_period cryptoU .twentyFourHours =
      (none, "unavailable") := by
  simp [get_percent_change_for_period, period_field, cryptoU]

lemma calc_cryptoU (fid now : ℕ) :
    calculate_crypto_score fid now cryptoU .twentyFourHours = none := by
  rw [calculate_crypto_score, res_cryptoU]

/-- A concrete asset record that has 24h data but no data for any longer
period: over one year the resolver yields `unavailable` although a shorter
period has data. -/
noncomputable def cryptoU5 : CryptoData :=
  { id := "c5", symbol := "SSS", name := "S coin",
    market_cap := 1000000, price := 1, volume_24h := 0,
    percent_change_1h := none, percent_change_24h := some 5,
    percent_change_7d := none, percent_change_30d := none,
    percent_change_60d := none, percent_change_90d := none,
    percent_change_180d := none, percent_change_270d := none,
    percent_change_365d := none, data_sources := ["coinmarketcap"] }

/-- A concrete asset record with a missing 24h change but 30d data present:
the engine still scores it over 30d, defaulting the momentum score. -/
noncomputable def cryptoN : CryptoData :=
  { id := "cN", symbol := "NNN", name := "N coin",
    market_cap := 500000000, price := 2, volume_24h := 0,
    percent_change_1h := none, percent_change_24h := none,
    percent_change_7d := none, percent_change_30d := some (-20),
    percent_change_60d := none, percent_change_90d := none,
    percent_change_180d := none, percent_change_270d := none,
    percent_change_365d := none, data_sources := ["coinmarketcap"] }

/-- The score the engine produces for `cryptoN` over 30d. -/
noncomputable def scoreN (fid now : ℕ) : CryptoScore :=
  { id := fid, crypto_id := "cN", symbol := "NNN", name := "N coin",
    market_cap := 500000000, price := 2, period := .oneMonth,
    period_performance := some (-20), data_source := "direct_cmc",
    performance_score := 45, drawdown_score := 48,
    rebound_potential_score := 95, momentum_score := 50,
    total_score := 69.3, rank := none, last_updated := now }

lemma res_cryptoN :
    get_percent_change_for_period cryptoN .oneMonth =
      (some (-20), "direct_cmc") := by
  simp [get_percent_change_for_period, period_field, cryptoN]

lemma calc_cryptoN (fid now : ℕ) :
    calculate_crypto_score fid now cryptoN .oneMonth =
      some (scoreN fid now) := by
  rw [calculate_crypto_score, res_cryptoN]
  norm_num [scoreN, cryptoN, reference_change,
    calculate_performance_score, calculate_drawdown_score,
    drawdown_period_multiplier, calculate_rebound_potential_score,
    rebound_cap_tier, rebound_period_multiplier, calculate_momentum_score,
    weights_oneMonth, CryptoScore.mk.injEq,
    min_def, max_def, abs_of_neg, abs_of_nonneg]

lemma weights_oneHour :
    get_period_specific_weights .oneHour =
      { performance := 0.10, drawdown := 0.10, rebound := 0.50, momentum := 0.30 } := rfl

lemma weights_oneWeek :
    get_period_specific_weights .oneWeek =
      { performance := 0.15, drawdown := 0.10, rebound := 0.45, momentum := 0.30 } := rfl

lemma weights_twoMonths :
    get_period_specific_weights .twoMonths =
      { performance := 0.15, drawdown := 0.15, rebound := 0.45, momentum := 0.25 } := rfl

lemma weights_threeMonths :
    get_period_specific_weights .threeMonths =
      { performance := 0.15, drawdown := 0.15, rebound := 0.45, momentum := 0.25 } := rfl

lemma weights_sixMonths :
    get_period_specific_weights .sixMonths =
      { performance := 0.10, drawdown := 0.15, rebound := 0.50, momentum := 0.25 } := rfl

lemma weights_nineMonths :
    get_period_specific_weights .nineMonths =
      { performance := 0.10, drawdown := 0.15, rebound := 0.50, momentum := 0.25 } := rfl

lemma weights_oneYear :
    get_period_specific_weights .oneYear =
      { performance := 0.10, drawdown := 0.15, rebound := 0.50, momentum := 0.25 } := rfl

lemma weights_spec (p : TimePeriod) :
    0 ≤ (get_period_specific_weights p).performance ∧
    0 ≤ (get_period_specific_weights p).drawdown ∧
    0 ≤ (get_period_specific_weights p).rebound ∧
    0 ≤ (get_period_specific_weights p).momentum ∧
    (get_period_specific_weights p).performance +
      (get_period_specific_weights p).drawdown +
      (get_period_specific_weights p).rebound +
      (get_period_specific_weights p).momentum = 1 := by
  cases p <;>
    simp only [weights_oneHour, weights_twentyFourHours, weights_oneWeek,
      weights_oneMonth, weights_twoMonths, weights_threeMonths,
      weights_sixMonths, weights_nineMonths, weights_oneYear] <;>
    norm_num

lemma performance_score_bounds (pc : ℝ) :
    25 ≤ calculate_performance_score (some pc) ∧
      calculate_performance_score (some pc) ≤ 95 := by
  simp only [calculate_performance_score]
  split_ifs with h1 h2 h3 h4 h5 h6
  · norm_num
  · norm_num
  · norm_num
  · norm_num
  · norm_num
  · norm_num
  · have hl : 0 ≤ Real.log (1 + pc / 25) := Real.log_nonneg (by push_neg at h6; linarith)
    exact ⟨le_min (by norm_num) (by linarith), min_le_left _ _⟩

lemma drawdown_score_bounds (pc : Option ℝ) (v : ℝ) (p : TimePeriod) :
    10 ≤ calculate_drawdown_score pc v p ∧ calculate_drawdown_score pc v p ≤ 100 := by
  cases pc with
  | none => simp only [calculate_drawdown_score]; norm_num
  | some pc =>
    simp only [calculate_drawdown_score]
    exact ⟨le_max_left _ _, max_le (by norm_num) (min_le_left _ _)⟩

lemma rebound_score_bounds (cc : Option ℝ) (mc : ℝ) (p : TimePeriod) :
    10 ≤ calculate_rebound_potential_score cc mc p ∧
      calculate_rebound_potential_score cc mc p ≤ 100 := by
  cases cc with
  | none => simp only [calculate_rebound_potential_score]; norm_num
  | some cc =>
    simp only [calculate_rebound_potential_score]
    exact ⟨le_max_left _ _, max_le (by norm_num) (min_le_left _ _)⟩

lemma momentum_score_bounds (sc lc : Option ℝ) (p : TimePeriod) :
    0 ≤ calculate_momentum_score sc lc p ∧ calculate_momentum_score sc lc p ≤ 100 := by
  cases sc with
  | none => cases lc <;> (simp only [calculate_momentum_score]; norm_num)
  | some sc =>
    cases lc with
    | none => simp only [calculate_momentum_score]; norm_num
    | some lc =>
      simp only [calculate_momentum_score]
      exact ⟨le_max_left _ _, max_le (by norm_num) (min_le_left _ _)⟩

lemma weighted_total_bounds (wp wd wr wm P D R M : ℝ)
    (hwp : 0 ≤ wp) (hwd : 0 ≤ wd) (hwr : 0 ≤ wr) (hwm : 0 ≤ wm)
    (hsum : wp + wd + wr + wm = 1)
    (hP0 : 0 ≤ P) (hP1 : P ≤ 100) (hD0 : 0 ≤ D) (hD1 : D ≤ 100)
    (hR0 : 0 ≤ R) (hR1 : R ≤ 100) (hM0 : 0 ≤ M) (hM1 : M ≤ 100) :
    0 ≤ P * wp + D * wd + R * wr + M * wm ∧
      P * wp + D * wd + R * wr + M * wm ≤ 100 := by
  have h1 : P * wp ≤ 100 * wp := mul_le_mul_of_nonneg_right hP1 hwp
  have h2 : D * wd ≤ 100 * wd := mul_le_mul_of_nonneg_right hD1 hwd
  have h3 : R * wr ≤ 100 * wr := mul_le_mul_of_nonneg_right hR1 hwr
  have h4 : M * wm ≤ 100 * wm := mul_le_mul_of_nonneg_right hM1 hwm
  refine ⟨?_, ?_⟩
  · have := mul_nonneg hP0 hwp
    have := mul_nonneg hD0 hwd
    have := mul_nonneg hR0 hwr
    have := mul_nonneg hM0 hwm
    linarith
  · nlinarith [h1, h2, h3, h4, hsum]

/-- C1: for every asset successfully scored for a period, the total score
equals the sum over the four components (performance, drawdown, rebound,
momentum) of the period weight for that component times that component
score, and this total lies in [0, 100]. -/
theorem claim_total_score_weighted_sum_bounded
    (fid now : ℕ) (c : CryptoData) (p : TimePeriod) (s : CryptoScore)
    (h : calculate_crypto_score fid now c p = some s) :
    s.total_score =
      s.performance_score * (get_period_specific_weights p).performance +
      s.drawdown_score * (get_period_specific_weights p).drawdown +
      s.rebound_potential_score * (get_period_specific_weights p).rebound +
      s.momentum_score * (get_period_specific_weights p).momentum ∧
    0 ≤ s.total_score ∧ s.total_score ≤ 100 := by
  rcases hres : get_percent_change_for_period c p with ⟨v, src⟩
  cases v with
  | none =>
    rw [calculate_crypto_score, hres] at h
    exact absurd h (by simp)
  | some pc =>
    rw [calculate_crypto_score, hres] at h
    have hs := (Option.some.inj h).symm
    subst hs
    refine ⟨rfl, ?_⟩
    have hW := weights_spec p
    have hP := performance_score_bounds pc
    have hD := drawdown_score_bounds (some pc)
      (min 3 (c.volume_24h / max c.market_cap 1000000)) p
    have hR := rebound_score_bounds (some pc) c.market_cap p
    have hM : 0 ≤ (match reference_change c p with
        | some rc => calculate_momentum_score c.percent_change_24h (some rc) p
        | none => calculate_momentum_score c.percent_change_24h (some pc) p) ∧
        (match reference_change c p with
        | some rc => calculate_momentum_score c.percent_change_24h (some rc) p
        | none => calculate_momentum_score c.percent_change_24h (some pc) p) ≤ 100 := by
      cases reference_change c p with
      | none => exact momentum_score_bounds _ _ _
      | some rc => exact momentum_score_bounds _ _ _
    exact weighted_total_bounds _ _ _ _ _ _ _ _
      hW.1 hW.2.1 hW.2.2.1 hW.2.2.2.1 hW.2.2.2.2
      (by linarith [hP.1]) (by linarith [hP.2]) (by linarith [hD.1]) hD.2
      (by linarith [hR.1]) hR.2 hM.1 hM.2

/-- Witness for C1 at the concrete record `crypto0` over 24h. -/
theorem claim_total_score_weighted_sum_bounded_witness :
    calculate_crypto_score 0 0 crypto0 .twentyFourHours = some (score0 0 0) ∧
    ((score0 0 0).total_score =
      (score0 0 0).performance_score *
        (get_period_specific_weights .twentyFourHours).performance +
      (score0 0 0).drawdown_score *
        (get_period_specific_weights .twentyFourHours).drawdown +
      (score0 0 0).rebound_potential_score *
        (get_period_specific_weights .twentyFourHours).rebound +
      (score0 0 0).momentum_score *
        (get_period_specific_weights .twentyFourHours).momentum ∧
    0 ≤ (score0 0 0).total_score ∧ (score0 0 0).total_score ≤ 100) :=
  ⟨calc_crypto0 0 0,
    claim_total_score_weighted_sum_bounded 0 0 crypto0 .twentyFourHours
      (score0 0 0) (calc_crypto0 0 0)⟩

/-- C2: for every TimePeriod, the weighting policy returns four weights
(performance, drawdown, rebound, momentum) that are all non-negative and
sum to exactly 1. -/
theorem claim_weights_nonneg_sum_one (p : TimePeriod) :
    0 ≤ (get_period_specific_weights p).performance ∧
    0 ≤ (get_period_specific_weights p).drawdown ∧
    0 ≤ (get_period_specific_weights p).rebound ∧
    0 ≤ (get_period_specific_weights p).momentum ∧
    (get_period_specific_weights p).performance +
      (get_period_specific_weights p).drawdown +
      (get_period_specific_weights p).rebound +
      (get_period_specific_weights p).momentum = 1 :=
  weights_spec p

/-- C3: for every present (non-absent) percent-change input, each of the
four component scorers returns a value in [0, 100], and the
rebound-potential scorer value lies in [10, 100]. -/
theorem claim_component_scores_bounded
    (pc cc mc v sc lc : ℝ) (p : TimePeriod) :
    (0 ≤ calculate_performance_score (some pc) ∧
      calculate_performance_score (some pc) ≤ 100) ∧
    (0 ≤ calculate_drawdown_score (some pc) v p ∧
      calculate_drawdown_score (some pc) v p ≤ 100) ∧
    (0 ≤ calculate_momentum_score (some sc) (some lc) p ∧
      calculate_momentum_score (some sc) (some lc) p ≤ 100) ∧
    (10 ≤ calculate_rebound_potential_score (some cc) mc p ∧
      calculate_rebound_potential_score (some cc) mc p ≤ 100) := by
  have hP := performance_score_bounds pc
  have hD := drawdown_score_bounds (some pc) v p
  have hM := momentum_score_bounds (some sc) (some lc) p
  have hR := rebound_score_bounds (some cc) mc p
  exact ⟨⟨by linarith [hP.1], by linarith [hP.2]⟩,
    ⟨by linarith [hD.1], hD.2⟩, hM, hR⟩

/-- C10: a component scorer called with an absent (None) percent-change
input never fails but returns a fixed default (0 for the performance
scorer, the neutral 50 for the drawdown, rebound-potential and momentum
scorers); in particular an asset with a missing 24h change is still scored
and carries a neutral momentum score of 50. -/
theorem claim_none_input_defaults :
    calculate_performance_score none = 0 ∧
    (∀ (v : ℝ) (p : TimePeriod), calculate_drawdown_score none v p = 50) ∧
    (∀ (mc : ℝ) (p : TimePeriod),
      calculate_rebound_potential_score none mc p = 50) ∧
    (∀ (lc : Option ℝ) (p : TimePeriod),
      calculate_momentum_score none lc p = 50) ∧
    (∀ (fid now : ℕ) (c : CryptoData) (p : TimePeriod) (s : CryptoScore),
      c.percent_change_24h = none →
      calculate_crypto_score fid now c p = some s →
      s.momentum_score = 50) := by
  refine ⟨rfl, fun v p => rfl, fun mc p => rfl, fun lc p => ?_, ?_⟩
  · cases lc <;> rfl
  · intro fid now c p s h24 h
    rcases hres : get_percent_change_for_period c p with ⟨v, src⟩
    cases v with
    | none =>
      rw [calculate_crypto_score, hres] at h
      exact absurd h (by simp)
    | some pc =>
      rw [calculate_crypto_score, hres] at h
      have hs := (Option.some.inj h).symm
      subst hs
      dsimp only
      rw [h24]
      cases reference_change c p <;> rfl

/-- Witness for C10 at the concrete record `cryptoN` (missing 24h data,
scored over 30d). -/
theorem claim_none_input_defaults_witness :
    cryptoN.percent_change_24h = none ∧
    calculate_crypto_score 0 0 cryptoN .oneMonth = some (scoreN 0 0) ∧
    (scoreN 0 0).momentum_score = 50 :=
  ⟨rfl, calc_cryptoN 0 0,
    claim_none_input_defaults.2.2.2.2 0 0 cryptoN .oneMonth (scoreN 0 0)
      rfl (calc_cryptoN 0 0)⟩

/-- C5 counterexample: `cryptoU5` has 24h data (a shorter period with
data), yet requesting one year returns absent tagged unavailable — the
resolver performs no fallback derivation. -/
theorem claim_resolver_fallback_counterexample :
    cryptoU5.percent_change_24h = some 5 ∧
    get_percent_change_for_period cryptoU5 .oneYear = (none, "unavailable") := by
  constructor
  · rfl
  · simp [get_percent_change_for_period, period_field, cryptoU5]

/-- C5 (amended): the resolver returns exactly the stored percent change
of the requested period (tagged with a data-source string that is never
"unavailable" when the value is present), and returns absent tagged
"unavailable" whenever the stored value for that period is absent —
regardless of whether shorter periods have data; no derived fallback value
is ever produced by the resolver. -/
theorem claim_resolver_no_fallback (c : CryptoData) (p : TimePeriod) :
    (get_percent_change_for_period c p).1 = period_field c p ∧
    (period_field c p = none →
      get_percent_change_for_period c p = (none, "unavailable")) ∧
    (∀ v : ℝ, period_field c p = some v →
      (get_percent_change_for_period c p).2 ≠ "unavailable") := by
  rcases hf : period_field c p with _ | v
  · simp [get_percent_change_for_period, hf]
  · refine ⟨?_, ?_, ?_⟩
    · simp only [get_percent_change_for_period, hf]
      split_ifs <;> rfl
    · intro hn; exact absurd hn (by simp)
    · intro w hw
      simp only [get_percent_change_for_period, hf]
      split_ifs <;> simp

/-- Witness for C5 (amended) at `cryptoU5` requesting one year. -/
theorem claim_resolver_no_fallback_witness :
    period_field cryptoU5 .oneYear = none ∧
    get_percent_change_for_period cryptoU5 .oneYear = (none, "unavailable") :=
  ⟨rfl, (claim_resolver_no_fallback cryptoU5 .oneYear).2.1 rfl⟩

/-- C7 counterexample: the performance scorer maps 0 to 65, not to the
neutral midpoint 50, and is constant on whole bands (-60 and -55 both map
to 25), hence not strictly increasing. -/
theorem claim_performance_curve_counterexample :
    calculate_performance_score (some 0) = 65 ∧
    (-60 : ℝ) < -55 ∧
    calculate_performance_score (some (-60)) =
      calculate_performance_score (some (-55)) := by
  norm_num [calculate_performance_score]

/-- C7 (amended): the performance scorer maps 0 to 65 (a value above the
neutral midpoint, not equal to 50), is monotone non-decreasing (but not
strictly increasing, being constant on bands) in the percent change, and
is bounded within [25, 95], hence within the [0, 100] clamp. -/
theorem claim_performance_monotone_bounded :
    calculate_performance_score (some 0) = 65 ∧
    (∀ x y : ℝ, x ≤ y →
      calculate_performance_score (some x) ≤ calculate_performance_score (some y)) ∧
    (∀ x : ℝ, 25 ≤ calculate_performance_score (some x) ∧
      calculate_performance_score (some x) ≤ 95) := by
  refine ⟨by norm_num [calculate_performance_score], ?_, performance_score_bounds⟩
  intro x y hxy
  simp only [calculate_performance_score]
  split_ifs
  all_goals try norm_num
  all_goals try linarith
  all_goals
    first
      | (have h2 : Real.log 2 ≤ Real.log (1 + y / 25) :=
           Real.log_le_log (by norm_num) (by linarith)
         have h3 := Real.log_two_gt_d9
         linarith)
      | (right
         exact Real.log_le_log (by linarith) (by linarith))

/-- Witness for C7 (amended) at the inputs 3 and 7. -/
theorem claim_performance_monotone_bounded_witness :
    (3 : ℝ) ≤ 7 ∧
    calculate_performance_score (some 3) ≤ calculate_performance_score (some 7) :=
  ⟨by norm_num, claim_performance_monotone_bounded.2.1 3 7 (by norm_num)⟩

lemma momentum_reversal_gt (sc lc : ℝ) (p : TimePeriod)
    (h1 : 0 < sc) (h2 : lc < -10) :
    92 < calculate_momentum_score (some sc) (some lc) p := by
  simp only [calculate_momentum_score]
  rw [if_pos ⟨h1, h2⟩]
  rw [if_neg (by rintro (⟨_, hb⟩ | ⟨ha, _⟩) <;> linarith)]
  rw [if_pos ⟨h1, by linarith⟩]
  have habs : |lc| = -lc := abs_of_neg (by linarith)
  have hm : (2 : ℝ) < min 15 (|lc| / 5) := by
    rw [habs]; exact lt_min (by norm_num) (by linarith)
  have hmin : (92 : ℝ) < min 100 (80 + min 15 (|lc| / 5) + 10) :=
    lt_min (by norm_num) (by linarith)
  calc (92 : ℝ) < min 100 (80 + min 15 (|lc| / 5) + 10) := hmin
    _ ≤ max 0 (min 100 (80 + min 15 (|lc| / 5) + 10)) := le_max_right _ _

lemma momentum_no_reversal_le (sc lc : ℝ) (p : TimePeriod)
    (h : ¬(0 < sc ∧ lc < 0)) :
    calculate_momentum_score (some sc) (some lc) p ≤ 90 := by
  simp only [calculate_momentum_score]
  have hrev : ¬(sc > 0 ∧ lc < -10) := fun hx => h ⟨hx.1, by linarith [hx.2]⟩
  rw [if_neg hrev, if_neg h]
  split_ifs <;> norm_num [max_def, min_def]

/-- C6: a positive short-term change against a meaningfully negative
long-term reference (a sign reversal) scores strictly higher momentum than
any input with the same momentum differential but no sign reversal; in
particular short +8 against reference -25 beats short +8 against
reference +8. -/
theorem claim_momentum_reversal_bonus :
    (∀ (sc lc sd ld : ℝ) (p q : TimePeriod), 0 < sc → lc < -10 →
      sd - ld = sc - lc → ¬(0 < sd ∧ ld < 0) →
      calculate_momentum_score (some sd) (some ld) q <
        calculate_momentum_score (some sc) (some lc) p) ∧
    (∀ p : TimePeriod,
      calculate_momentum_score (some 8) (some 8) p <
        calculate_momentum_score (some 8) (some (-25)) p) := by
  constructor
  · intro sc lc sd ld p q h1 h2 _ h4
    have ha := momentum_no_reversal_le sd ld q h4
    have hb := momentum_reversal_gt sc lc p h1 h2
    linarith
  · intro p
    have hb := momentum_reversal_gt 8 (-25) p (by norm_num) (by norm_num)
    have ha := momentum_no_reversal_le 8 8 p (by norm_num)
    linarith

/-- Witness for C6: the reversal input (+8, -25) beats both the
same-differential non-reversal input (+40, +7) and the no-reversal input
(+8, +8). -/
theorem claim_momentum_reversal_bonus_witness :
    (0 : ℝ) < 8 ∧ (-25 : ℝ) < -10 ∧ (40 : ℝ) - 7 = 8 - (-25) ∧
    ¬((0 : ℝ) < 40 ∧ (7 : ℝ) < 0) ∧
    calculate_momentum_score (some 40) (some 7) .oneWeek <
      calculate_momentum_score (some 8) (some (-25)) .oneWeek ∧
    calculate_momentum_score (some 8) (some 8) .oneWeek <
      calculate_momentum_score (some 8) (some (-25)) .oneWeek := by
  refine ⟨by norm_num, by norm_num, by norm_num, by norm_num, ?_, ?_⟩
  · exact claim_momentum_reversal_bonus.1 8 (-25) 40 7 .oneWeek .oneWeek
      (by norm_num) (by norm_num) (by norm_num) (by norm_num)
  · exact claim_momentum_reversal_bonus.2 .oneWeek

/-- The length in hours of each lookback period, per the enum labels
(1h, 24h, 7d, 30d, 60d, 90d, 180d, 270d, 365d). -/
def period_length_hours : TimePeriod → ℕ
  | .oneHour => 1
  | .twentyFourHours => 24
  | .oneWeek => 168
  | .oneMonth => 720
  | .twoMonths => 1440
  | .threeMonths => 2160
  | .sixMonths => 4320
  | .nineMonths => 6480
  | .oneYear => 8760

/-- C8 counterexample: 90d is shorter than 180d, yet the performance
weight drops from 0.15 at 90d to 0.10 at 180d — the performance weight is
not monotone non-decreasing in period length. -/
theorem claim_performance_weight_monotone_counterexample :
    period_length_hours .threeMonths < period_length_hours .sixMonths ∧
    (get_period_specific_weights .sixMonths).performance <
      (get_period_specific_weights .threeMonths).performance := by
  refine ⟨by norm_num [period_length_hours], ?_⟩
  rw [weights_sixMonths, weights_threeMonths]
  norm_num

/-- C8 (amended): the performance weight is monotone non-decreasing in
period length among the periods up to 90 days (0.10 for 1h/24h, 0.15 for
7d..90d), but for every period longer than 90 days it falls back to 0.10,
below the 0.15 of 90d. -/
theorem claim_performance_weight_monotone_short :
    (∀ p q : TimePeriod, period_length_hours p ≤ period_length_hours q →
      period_length_hours q ≤ 2160 →
      (get_period_specific_weights p).performance ≤
        (get_period_specific_weights q).performance) ∧
    (get_period_specific_weights .threeMonths).performance = 0.15 ∧
    (∀ p : TimePeriod, 2160 < period_length_hours p →
      (get_period_specific_weights p).performance = 0.10) := by
  refine ⟨?_, by rw [weights_threeMonths], ?_⟩
  · intro p q h1 h2
    cases p <;> cases q <;>
      simp only [period_length_hours] at h1 h2 <;>
      try omega
    all_goals
      simp only [weights_oneHour, weights_twentyFourHours, weights_oneWeek,
        weights_oneMonth, weights_twoMonths, weights_threeMonths]
    all_goals norm_num
  · intro p hp
    cases p <;> simp only [period_length_hours] at hp <;> try omega
    all_goals
      simp only [weights_sixMonths, weights_nineMonths, weights_oneYear]

/-- Witness for C8 (amended): 1h is shorter than 90d and both are within
the short range, so the weight comparison applies there. -/
theorem claim_performance_weight_monotone_short_witness :
    period_length_hours .oneHour ≤ period_length_hours .threeMonths ∧
    period_length_hours .threeMonths ≤ 2160 ∧
    (get_period_specific_weights .oneHour).performance ≤
      (get_period_specific_weights .threeMonths).performance ∧
    2160 < period_length_hours .oneYear ∧
    (get_period_specific_weights .oneYear).performance = 0.10 := by
  refine ⟨by norm_num [period_length_hours], by norm_num [period_length_hours],
    ?_, by norm_num [period_length_hours], ?_⟩
  · exact claim_performance_weight_monotone_short.1 .oneHour .threeMonths
      (by norm_num [period_length_hours]) (by norm_num [period_length_hours])
  · exact claim_performance_weight_monotone_short.2.2 .oneYear
      (by norm_num [period_length_hours])

lemma assign_ranks_length (i : ℕ) (l : List CryptoScore) :
    (assign_ranks i l).length = l.length := by
  induction l generalizing i with
  | nil => rfl
  | cons s rest ih => simp [assign_ranks, ih]

lemma assign_ranks_map_rank (i : ℕ) (l : List CryptoScore) :
    (assign_ranks i l).map (fun s => s.rank) =
      (List.range' i l.length).map some := by
  induction l generalizing i with
  | nil => rfl
  | cons s rest ih =>
    simp [assign_ranks, List.range'_succ, ih]

lemma assign_ranks_map_total (i : ℕ) (l : List CryptoScore) :
    (assign_ranks i l).map (fun s => s.total_score) =
      l.map (fun s => s.total_score) := by
  induction l generalizing i with
  | nil => rfl
  | cons s rest ih => simp [assign_ranks, ih]

lemma assign_ranks_map_cid (i : ℕ) (l : List CryptoScore) :
    (assign_ranks i l).map (fun s => s.crypto_id) =
      l.map (fun s => s.crypto_id) := by
  induction l generalizing i with
  | nil => rfl
  | cons s rest ih => simp [assign_ranks, ih]

lemma scoreLe_trans (a b c : CryptoScore) :
    scoreLe a b → scoreLe b c → scoreLe a c := by
  simp only [scoreLe, decide_eq_true_eq]
  exact fun h1 h2 => le_trans h2 h1

lemma scoreLe_total (a b : CryptoScore) : scoreLe a b || scoreLe b a := by
  simp only [scoreLe, Bool.or_eq_true, decide_eq_true_eq]
  exact le_total _ _

lemma calc_some_resolved (fid now : ℕ) (c : CryptoData) (p : TimePeriod)
    (t : CryptoScore) (h : calculate_crypto_score fid now c p = some t) :
    (get_percent_change_for_period c p).1 ≠ none ∧ t.crypto_id = c.id := by
  rcases hres : get_percent_change_for_period c p with ⟨v, src⟩
  cases v with
  | none =>
    rw [calculate_crypto_score, hres] at h
    exact absurd h (by simp)
  | some pc =>
    rw [calculate_crypto_score, hres] at h
    have hs := (Option.some.inj h).symm
    subst hs
    exact ⟨by simp, rfl⟩

lemma score_batch_mem (gen : ℕ → ℕ) (now : ℕ) :
    ∀ (i : ℕ) (batch : List CryptoData) (p : TimePeriod) (t : CryptoScore),
    t ∈ score_batch gen now i batch p →
    ∃ c ∈ batch, ∃ j, calculate_crypto_score (gen j) now c p = some t := by
  intro i batch
  induction batch generalizing i with
  | nil => intro p t ht; simp [score_batch] at ht
  | cons c rest ih =>
    intro p t ht
    rw [score_batch] at ht
    cases hc : calculate_crypto_score (gen i) now c p with
    | some s =>
      simp only [hc] at ht
      rcases List.mem_cons.mp ht with h | h
      · exact ⟨c, List.mem_cons_self _ _, i, by rw [hc, h]⟩
      · obtain ⟨d, hd, j, hj⟩ := ih (i + 1) p t h
        exact ⟨d, List.mem_cons_of_mem _ hd, j, hj⟩
    | none =>
      simp only [hc] at ht
      obtain ⟨d, hd, j, hj⟩ := ih i p t ht
      exact ⟨d, List.mem_cons_of_mem _ hd, j, hj⟩

/-- C4: for every batch and period, the engine's per-period output assigns
ranks that are exactly 1..N (N the number of successfully scored assets,
no gaps, no shared ranks), is ordered by total score descending, and
contains no entry for an asset whose period value resolves to unavailable
(such an asset carries no rank at all). -/
theorem claim_dense_ranking (gen : ℕ → ℕ) (now : ℕ)
    (batch : List CryptoData) (p : TimePeriod) :
    ((calculate_all_scores gen now batch p).map (fun s => s.rank) =
      (List.range' 1 (calculate_all_scores gen now batch p).length).map some) ∧
    ((calculate_all_scores gen now batch p).map
      (fun s => s.total_score)).Pairwise (· ≥ ·) ∧
    ((batch.map (fun c => c.id)).Nodup →
      ∀ c ∈ batch, (get_percent_change_for_period c p).1 = none →
      ∀ s ∈ calculate_all_scores gen now batch p, s.crypto_id ≠ c.id) := by
  refine ⟨?_, ?_, ?_⟩
  · rw [calculate_all_scores, assign_ranks_map_rank, assign_ranks_length]
  · rw [calculate_all_scores, assign_ranks_map_total, List.pairwise_map]
    have hs := List.sorted_mergeSort scoreLe_trans scoreLe_total
      (score_batch gen now 0 batch p)
    exact hs.imp (fun hab => by
      simpa [scoreLe, ge_iff_le, decide_eq_true_eq] using hab)
  · intro hnodup c hc hcres s hs
    rw [calculate_all_scores] at hs
    have hmap : s.crypto_id ∈
        (assign_ranks 1 ((score_batch gen now 0 batch p).mergeSort scoreLe)).map
          (fun t => t.crypto_id) :=
      List.mem_map_of_mem _ hs
    rw [assign_ranks_map_cid] at hmap
    obtain ⟨t, ht, htc⟩ := List.mem_map.mp hmap
    rw [List.mem_mergeSort] at ht
    obtain ⟨d, hd, j, hj⟩ := score_batch_mem gen now 0 batch p t ht
    have hcr := calc_some_resolved (gen j) now d p t hj
    intro heq
    have hids : d.id = c.id := by rw [← hcr.2, htc, heq]
    have hdc : d = c := List.inj_on_of_nodup_map hnodup hd hc hids
    rw [hdc] at hcr
    exact hcr.1 hcres

/-- Witness for C4 at the two-asset batch [crypto0, cryptoU] over 24h:
`cryptoU` resolves to unavailable and appears nowhere in the output. -/
theorem claim_dense_ranking_witness :
    (([crypto0, cryptoU].map (fun c => c.id)).Nodup) ∧
    cryptoU ∈ [crypto0, cryptoU] ∧
    (get_percent_change_for_period cryptoU .twentyFourHours).1 = none ∧
    (∀ s ∈ calculate_all_scores (fun i => i) 0 [crypto0, cryptoU] .twentyFourHours,
      s.crypto_id ≠ cryptoU.id) := by
  refine ⟨by simp [crypto0, cryptoU], by simp, by rw [res_cryptoU], ?_⟩
  exact (claim_dense_ranking (fun i => i) 0 [crypto0, cryptoU] .twentyFourHours).2.2
    (by simp [crypto0, cryptoU]) cryptoU (by simp) (by rw [res_cryptoU])

lemma stripMeta_calc (fid now : ℕ) (c : CryptoData) (p : TimePeriod) :
    (calculate_crypto_score fid now c p).map stripMeta =
      calculate_core_score c p := by
  rw [calculate_core_score]
  rcases hres : get_percent_change_for_period c p with ⟨v, src⟩
  cases v with
  | none => simp only [calculate_crypto_score, hres]
  | some pc => simp only [calculate_crypto_score, hres, Option.map_some']; rfl

lemma score_batch_strip (gen : ℕ → ℕ) (now : ℕ) :
    ∀ (i : ℕ) (batch : List CryptoData) (p : TimePeriod),
    (score_batch gen now i batch p).map stripMeta =
      batch.filterMap (fun c => calculate_core_score c p) := by
  intro i batch
  induction batch generalizing i with
  | nil => intro p; rfl
  | cons c rest ih =>
    intro p
    rw [score_batch, List.filterMap_cons]
    cases hc : calculate_crypto_score (gen i) now c p with
    | none =>
      have h0 : calculate_core_score c p = none := by
        rw [← stripMeta_calc (gen i) now, hc]; rfl
      simp only [hc, h0]
      exact ih i p
    | some s =>
      have h0 : calculate_core_score c p = some (stripMeta s) := by
        rw [← stripMeta_calc (gen i) now, hc]; rfl
      simp only [hc, h0, List.map_cons]
      rw [ih (i + 1) p]

lemma scoreLe_stripMeta (a b : CryptoScore) :
    scoreLe a b = coreLe (stripMeta a) (stripMeta b) := rfl

lemma assign_ranks_strip :
    ∀ (i : ℕ) (l : List CryptoScore),
    (assign_ranks i l).map stripMeta =
      assign_core_ranks i (l.map stripMeta) := by
  intro i l
  induction l generalizing i with
  | nil => rfl
  | cons s rest ih =>
    simp only [assign_ranks, List.map_cons, assign_core_ranks, ih]
    rfl

/-- C9 counterexample: running the engine twice over the same singleton
batch and period, with different fresh-uuid streams for the two runs,
yields different outputs (the generated `id` field differs), so the output
is not identical in every field. -/
theorem claim_two_run_identity_counterexample :
    calculate_all_scores (fun _ => 0) 0 [crypto0] .twentyFourHours ≠
      calculate_all_scores (fun _ => 1) 0 [crypto0] .twentyFourHours := by
  have h1 : calculate_all_scores (fun _ => 0) 0 [crypto0] .twentyFourHours =
      [{ score0 0 0 with rank := some 1 }] := by
    rw [calculate_all_scores]
    simp only [score_batch, calc_crypto0]
    rw [List.mergeSort_singleton]
    rfl
  have h2 : calculate_all_scores (fun _ => 1) 0 [crypto0] .twentyFourHours =
      [{ score0 1 0 with rank := some 1 }] := by
    rw [calculate_all_scores]
    simp only [score_batch, calc_crypto0]
    rw [List.mergeSort_singleton]
    rfl
  rw [h1, h2]
  intro h
  simp [score0, CryptoScore.mk.injEq] at h

/-- C9 (amended): the engine is deterministic in everything except the
generated metadata: for any two runs over the same batch and period (with
arbitrary uuid streams and timestamps), the outputs agree on every field
other than the fresh record `id` and `last_updated` — the same assets, the
same component/total scores, the same data sources and the same ranks in
the same order. -/
theorem claim_engine_deterministic_modulo_metadata
    (gen1 gen2 : ℕ → ℕ) (now1 now2 : ℕ)
    (batch : List CryptoData) (p : TimePeriod) :
    (calculate_all_scores gen1 now1 batch p).map stripMeta =
      (calculate_all_scores gen2 now2 batch p).map stripMeta := by
  have key : ∀ (gen : ℕ → ℕ) (now : ℕ),
      (calculate_all_scores gen now batch p).map stripMeta =
        assign_core_ranks 1
          ((batch.filterMap (fun c => calculate_core_score c p)).mergeSort coreLe) := by
    intro gen now
    rw [calculate_all_scores, assign_ranks_strip,
      List.map_mergeSort (fun a _ b _ => scoreLe_stripMeta a b),
      score_batch_strip]
  rw [key gen1 now1, key gen2 now2]
